import Mathlib

/-!
Verification of the capypdf core against its design description.

The development shallowly embeds the relevant parts of the C++ sources:

* `src/pdfcommon.cpp` — the native UTF-8 codepoint decoder
  (`CodepointIterator::extract_one_codepoint` and the helper `unpack_one`).
* `src/pdfgen.cpp` — the document writer commit path (`PdfGen::write`),
  page and pattern registration (`PdfGen::add_page`, `PdfGen::add_pattern`)
  and text measurement (`PdfGen::utf8_text_width`).

Machine integers (`uint32_t`) are modelled as `Nat`; every value that
arises stays far below `2 ^ 32`, so no wrap-around modelling is needed.
C++ exceptions and error codes are modelled with `Except` and explicit
error enumerations.  File-system side effects are modelled by an explicit
environment of success flags plus an event trace.
-/

namespace CapyPdf

/-! ## Codepoint decoder (src/pdfcommon.cpp) -/

/-- Loop body of `unpack_one` (pdfcommon.cpp lines 23-28): for each
subsequent byte, shift the accumulator left by 6 data bits and merge the
low 6 bits (`subsequent_data_mask = 0b111111`) of that byte. -/
def unpackSub : Nat → List Nat → Nat
  | acc, [] => acc
  | acc, b :: bs => unpackSub ((acc <<< 6) ||| (b &&& 63)) bs

/-- Embedding of `unpack_one` (pdfcommon.cpp lines 17-31): mask the data
bits of the leading byte with `byte1_data_mask`, then fold in the
subsequent bytes.  The list `subs` holds the `num_subsequent_bytes`
continuation bytes `valid_utf8[1] ...`. -/
def unpack_one (byte1 mask : Nat) (subs : List Nat) : Nat :=
  unpackSub (byte1 &&& mask) subs

/-- Embedding of `CodepointIterator::extract_one_codepoint`
(pdfcommon.cpp lines 49-75).  The returned pair is `CharInfo`: the
codepoint and the number of bytes consumed.  The `std::abort()` branch
for an unclassifiable leading byte is modelled as `none`.  Reads past the
end of the buffer (impossible on validated input, where every
continuation byte is present) are modelled with `List.getD _ _ 0`. -/
def extract_one_codepoint (buf : List Nat) : Option (Nat × Nat) :=
  let code := buf.getD 0 0
  if code < 128 then
    some (code, 1)
  else if code &&& 224 = 192 then
    some (unpack_one code 31 [buf.getD 1 0], 2)
  else if code &&& 240 = 224 then
    some (unpack_one code 15 [buf.getD 1 0, buf.getD 2 0], 3)
  else if code &&& 248 = 240 then
    some (unpack_one code 7 [buf.getD 1 0, buf.getD 2 0, buf.getD 3 0], 4)
  else
    none

/-- Iterating the decoder over a whole buffer, with explicit fuel so that
the definition is structurally recursive and kernel-computable.  Each
step consumes at least one byte, so fuel equal to the buffer length never
runs out (see `decodeFuel_length`).  Returns the list of
(codepoint, consumed bytes) pairs produced by the iterator. -/
def decodeFuel : Nat → List Nat → Option (List (Nat × Nat))
  | _, [] => some []
  | 0, _ :: _ => none
  | fuel + 1, b :: bs =>
    match extract_one_codepoint (b :: bs) with
    | none => none
    | some (cp, n) =>
      Option.map (fun l => (cp, n) :: l) (decodeFuel fuel (List.drop n (b :: bs)))

/-- Running the codepoint iterator of pdfcommon.cpp from the start to the
end of a buffer. -/
def decodeAll (buf : List Nat) : Option (List (Nat × Nat)) :=
  decodeFuel buf.length buf

/-! ## Reference UTF-8 encoder (for the round-trip law)

The following definitions follow the UTF-8 specification words, not any
code of the repository: they provide the "re-encoding" direction of the
round-trip claim and the notion of a well-formed buffer. -/

/-- Minimal (well-formed) UTF-8 encoding of one Unicode scalar value. -/
def utf8EncodeOne (c : Nat) : List Nat :=
  if c < 128 then
    [c]
  else if c < 2048 then
    [192 + c / 64, 128 + c % 64]
  else if c < 65536 then
    [224 + c / 4096, 128 + c / 64 % 64, 128 + c % 64]
  else
    [240 + c / 262144, 128 + c / 4096 % 64, 128 + c / 64 % 64, 128 + c % 64]

/-- Concatenated UTF-8 encoding of a sequence of scalar values. -/
def utf8Encode : List Nat → List Nat
  | [] => []
  | c :: cs => utf8EncodeOne c ++ utf8Encode cs

/-- Unicode scalar value: below 0x110000 and not a surrogate. -/
def IsScalarValue (c : Nat) : Prop :=
  c < 1114112 ∧ (c < 55296 ∨ 57344 ≤ c)

instance (c : Nat) : Decidable (IsScalarValue c) := by
  unfold IsScalarValue; infer_instance

/-- A byte buffer is well-formed UTF-8 when it is the minimal encoding of
some sequence of Unicode scalar values. -/
def Utf8WellFormed (buf : List Nat) : Prop :=
  ∃ cs : List Nat, (∀ c ∈ cs, IsScalarValue c) ∧ buf = utf8Encode cs

/-! ## Document writer commit path (PdfGen::write, pdfgen.cpp lines 68-114)

The commit sequence touches the file system through six primitives:
fopen on the temporary path, PdfDocument::write_to_file (serialization),
fflush, fsync, fclose, and rename onto the destination.  Each primitive
either succeeds or fails; the environment below fixes the outcome of
each, and the embedding returns the error code of the source together
with the ordered trace of file-system actions it performed. -/

/-- Error codes returned by PdfGen::write (the subset of ErrorCode that
the function can produce). -/
inductive ErrorCode where
  | NoError
  | NoPages
  | CouldNotOpenFile
  | DynamicError
  | FileWriteError
deriving DecidableEq

/-- File-system actions performed by PdfGen::write, in program order:
opening the temporary file, serializing the document into it, flushing
it, forcing it to stable storage, closing it, and renaming it over the
final destination.  Only `renameTemp` ever touches the destination
path. -/
inductive WriteEvent where
  | openTempFile
  | serializeGraph
  | flushTemp
  | fsyncTemp
  | closeTemp
  | renameTemp
deriving DecidableEq

/-- Outcome of each file-system primitive during one run of
PdfGen::write. -/
structure WriteEnv where
  openOk : Bool
  serializeOk : Bool
  flushOk : Bool
  fsyncOk : Bool
  closeOk : Bool
  renameOk : Bool
deriving DecidableEq

/-- Embedding of PdfGen::write (pdfgen.cpp lines 68-114).  `numPages` is
`pdoc.pages.size()`.  The returned trace lists the file-system actions in
the order the source performs them; a failing action is recorded as
attempted.  The fclose calls on the cleanup paths of a failed
serialization, flush or fsync (whose return value the source ignores)
are recorded as `closeTemp` as well. -/
def PdfGen.write (numPages : Nat) (env : WriteEnv) : ErrorCode × List WriteEvent :=
  if numPages = 0 then
    (ErrorCode.NoPages, [])
  else if !env.openOk then
    (ErrorCode.CouldNotOpenFile, [WriteEvent.openTempFile])
  else if !env.serializeOk then
    (ErrorCode.DynamicError,
      [WriteEvent.openTempFile, WriteEvent.serializeGraph, WriteEvent.closeTemp])
  else if !env.flushOk then
    (ErrorCode.DynamicError,
      [WriteEvent.openTempFile, WriteEvent.serializeGraph, WriteEvent.flushTemp,
        WriteEvent.closeTemp])
  else if !env.fsyncOk then
    (ErrorCode.FileWriteError,
      [WriteEvent.openTempFile, WriteEvent.serializeGraph, WriteEvent.flushTemp,
        WriteEvent.fsyncTemp, WriteEvent.closeTemp])
  else if !env.closeOk then
    (ErrorCode.FileWriteError,
      [WriteEvent.openTempFile, WriteEvent.serializeGraph, WriteEvent.flushTemp,
        WriteEvent.fsyncTemp, WriteEvent.closeTemp])
  else if !env.renameOk then
    (ErrorCode.FileWriteError,
      [WriteEvent.openTempFile, WriteEvent.serializeGraph, WriteEvent.flushTemp,
        WriteEvent.fsyncTemp, WriteEvent.closeTemp, WriteEvent.renameTemp])
  else
    (ErrorCode.NoError,
      [WriteEvent.openTempFile, WriteEvent.serializeGraph, WriteEvent.flushTemp,
        WriteEvent.fsyncTemp, WriteEvent.closeTemp, WriteEvent.renameTemp])

/-! ## Text measurement (PdfGen::utf8_text_width, pdfgen.cpp lines 169-223)

The rasterization engine (FreeType) is an external collaborator: a face
is modelled by its kerning flag, its codepoint-to-glyph-index map, its
kerning-pair lookup (which may fail, modelling a nonzero FT_Get_Kerning
error) and its units-per-em value.  `PdfGen::glyph_advance` is declared
outside the given sources and is modelled as an oracle of the
environment.  The UTF-8 to UCS-4 conversion that the source delegates to
iconv is modelled by the native decoder `decodeAll`, which agrees with
it on every valid buffer; `iconv_open` is assumed to succeed. -/

/-- Face data exposed by the rasterization engine for one loaded font. -/
structure FontFace where
  hasKerning : Bool
  charIndex : Nat → Nat
  kerningX : Nat → Nat → Option Int
  unitsPerEM : Int

/-- One entry of pdoc.fonts.  A missing face (`none`) is a builtin,
name-only font. -/
structure FontEntry where
  face : Option FontFace

/-- Environment of PdfGen::utf8_text_width: the font registries of the
document and the glyph-advance oracle (PdfGen::glyph_advance, taking the
font id, the point size and a codepoint). -/
structure TextMeasureEnv where
  font_objects : List Nat
  fonts : List FontEntry
  glyph_advance : Nat → ℚ → Nat → Option ℚ

/-- Failures of PdfGen::utf8_text_width.  Each constructor models one
throw site of the source (or the failed assertion on a missing glyph
advance). -/
inductive WidthError where
  | badHandle
  | builtinFont
  | badUtf8
  | kerningFailed
  | missingAdvance
deriving DecidableEq

/-- Kerning contribution between two adjacent codepoints (pdfgen.cpp
lines 203-216): look the pair up by glyph index; a lookup failure is a
thrown error; a zero x-adjustment contributes nothing, a nonzero one
contributes the integer quotient by units-per-em (C integer division,
truncating toward zero). -/
def kernTerm (face : FontFace) (prev cp : Nat) : Except WidthError ℚ :=
  match face.kerningX (face.charIndex prev) (face.charIndex cp) with
  | none => Except.error WidthError.kerningFailed
  | some kx =>
    Except.ok (if kx = 0 then 0 else ((Int.tdiv kx face.unitsPerEM : Int) : ℚ))

/-- The while loop of PdfGen::utf8_text_width (pdfgen.cpp lines
194-221), one iteration per decoded codepoint: add the kerning term
(only when the face reports kerning and a previous codepoint exists),
then add the glyph advance; a missing advance fails the asserted
lookup. -/
def widthLoop (env : TextMeasureEnv) (face : FontFace) (fid : Nat) (ps : ℚ) :
    List Nat → Option Nat → ℚ → Except WidthError ℚ
  | [], _, w => Except.ok w
  | cp :: rest, prev, w =>
    match (if face.hasKerning then
            match prev with
            | some p => kernTerm face p cp
            | none => Except.ok (0 : ℚ)
          else Except.ok (0 : ℚ)) with
    | Except.error e => Except.error e
    | Except.ok k =>
      match env.glyph_advance fid ps cp with
      | none => Except.error WidthError.missingAdvance
      | some a => widthLoop env face fid ps rest (some cp) (w + k + a)

/-- Embedding of PdfGen::utf8_text_width (pdfgen.cpp lines 169-223):
resolve the font entry of the handle, reject a faceless builtin font
before looking at the text, decode the text, then accumulate kerning
terms and glyph advances over the decoded codepoints starting from
width 0. -/
def utf8_text_width (env : TextMeasureEnv) (text : List Nat) (fid : Nat) (ps : ℚ) :
    Except WidthError ℚ :=
  match env.font_objects.get? fid with
  | none => Except.error WidthError.badHandle
  | some idx =>
    match env.fonts.get? idx with
    | none => Except.error WidthError.badHandle
    | some entry =>
      match entry.face with
      | none => Except.error WidthError.builtinFont
      | some face =>
        match decodeAll text with
        | none => Except.error WidthError.badUtf8
        | some l => widthLoop env face fid ps (l.map Prod.fst) none 0

/-! ## Page and pattern registration (pdfgen.cpp lines 116-154)

PdfDrawContext itself (its serialize, clear, build_resource_dict and
get_command_stream members) is declared in a file outside the given
sources; its scope state machine is modelled from the spec. -/

/-- Draw context roles, the tagged variant of the design notes:
A4PDF_Page_Context and A4PDF_Color_Tiling_Pattern_Context. -/
inductive DrawContextType where
  | page
  | colorTilingPattern
deriving DecidableEq

/-- Result of PdfDrawContext::serialize: the page dictionary and the
command stream. -/
structure SerializedCtx where
  dict : String
  commands : String
deriving DecidableEq

/-- A content-stream scope.  The `closed` flag is modelled from the
spec: a scope is open while operators may be appended and becomes closed
(unusable) once it has been handed to the document object model. -/
structure PdfDrawContext where
  ctype : DrawContextType
  closed : Bool
  dict : String
  commands : String
deriving DecidableEq

/-- Modelled from the spec: PdfDrawContext::serialize is declared
outside the given sources; per the design, a closed scope is no longer
usable and reusing it is a fatal contract violation, so serialization of
a closed scope fails and an open scope serializes its accumulated
dictionary and command stream. -/
def PdfDrawContext.serialize (ctx : PdfDrawContext) : Option SerializedCtx :=
  if ctx.closed then none else some ⟨ctx.dict, ctx.commands⟩

/-- Modelled from the spec: PdfDrawContext::clear, called by
PdfGen::add_page after registration, hands the scope over to the
document object model, leaving it closed for further use. -/
def PdfDrawContext.clear (ctx : PdfDrawContext) : PdfDrawContext :=
  ⟨ctx.ctype, true, "", ""⟩

/-- A color tiling pattern builder (ColorPatternBuilder): a pattern-typed
draw context plus the tile dimensions. -/
structure ColorPatternBuilder where
  pctx : PdfDrawContext
  w : ℚ
  h : ℚ

/-- The pattern dictionary assembled by PdfGen::add_pattern (pdfgen.cpp
lines 130-151): bounding box and steps from the tile dimensions, the
resource dictionary of the context and the length of its command
stream. -/
structure PatternDict where
  bboxW : ℚ
  bboxH : ℚ
  xStep : ℚ
  yStep : ℚ
  resources : String
  streamLength : Nat
deriving DecidableEq

/-- The registries of PdfDocument that pdfgen.cpp touches: the page list
and the pattern list, both append-only. -/
structure PdfDocumentModel where
  pages : List SerializedCtx
  patterns : List (PatternDict × String)
deriving DecidableEq

/-- Embedding of PdfDocument::add_page: append the serialized scope to
the page registry. -/
def PdfDocumentModel.add_page (doc : PdfDocumentModel) (sc : SerializedCtx) :
    PdfDocumentModel :=
  ⟨doc.pages ++ [sc], doc.patterns⟩

/-- Errors of the registration paths.  The first two model the
runtime-error throws at pdfgen.cpp lines 118 and 128; the third models
the fatal contract violation of reusing a closed scope (spec section on
the writer state machine). -/
inductive AddError where
  | wrongContextType
  | wrongPatternType
  | reusedClosedScope
deriving DecidableEq

/-- Embedding of PdfGen::add_page (pdfgen.cpp lines 116-124): reject a
context whose type is not page; serialize the scope (failing fatally on
a closed scope, per the spec model above); append it to the page
registry; clear the context; return the new page id
`pdoc.pages.size() - 1`.  State passing makes the mutation of pdoc and
of the context explicit. -/
def PdfGen.add_page (doc : PdfDocumentModel) (ctx : PdfDrawContext) :
    Except AddError (PdfDocumentModel × Int × PdfDrawContext) :=
  if ctx.ctype ≠ DrawContextType.page then
    Except.error AddError.wrongContextType
  else
    match ctx.serialize with
    | none => Except.error AddError.reusedClosedScope
    | some sc =>
      let doc2 := doc.add_page sc
      Except.ok (doc2, (doc2.pages.length : Int) - 1, ctx.clear)

/-- Embedding of PdfGen::add_pattern (pdfgen.cpp lines 126-154): reject
a builder whose context type is not color tiling pattern; otherwise
assemble the pattern dictionary from the tile dimensions, the resource
dictionary and the command-stream length, and append it with the
command stream to the pattern registry, returning the new pattern
id. -/
def PdfGen.add_pattern (doc : PdfDocumentModel) (cp : ColorPatternBuilder) :
    Except AddError (PdfDocumentModel × Int) :=
  if cp.pctx.ctype ≠ DrawContextType.colorTilingPattern then
    Except.error AddError.wrongPatternType
  else
    let buf : PatternDict :=
      ⟨cp.w, cp.h, cp.w, cp.h, cp.pctx.dict, cp.pctx.commands.length⟩
    Except.ok (⟨doc.pages, doc.patterns ++ [(buf, cp.pctx.commands)]⟩,
      (doc.patterns.length : Int))

/-! ## Concrete sample data for witnesses and counterexamples -/

/-- Write environment in which every file-system primitive succeeds. -/
def envAllOk : WriteEnv := ⟨true, true, true, true, true, true⟩

/-- Write environment in which only fsync fails. -/
def envFsyncFail : WriteEnv := ⟨true, true, true, false, true, true⟩

/-- Write environment in which only the final rename fails. -/
def envRenameFail : WriteEnv := ⟨true, true, true, true, true, false⟩

/-- A face with no kerning support, identity glyph mapping and a total
kerning table. -/
def plainFace : FontFace := ⟨false, fun g => g, fun _ _ => some 0, 1000⟩

/-- A font entry backed by `plainFace`. -/
def faceEntry : FontEntry := ⟨some plainFace⟩

/-- A font entry with no backing face: a builtin, name-only font. -/
def builtinEntry : FontEntry := ⟨none⟩

/-- Measurement environment with one face-backed font at handle 0 and
every glyph advance equal to 1. -/
def faceEnv : TextMeasureEnv := ⟨[0], [faceEntry], fun _ _ _ => some 1⟩

/-- Measurement environment with one faceless builtin font at
handle 0. -/
def builtinEnv : TextMeasureEnv := ⟨[0], [builtinEntry], fun _ _ _ => some 1⟩

/-- The empty document registry. -/
def emptyDoc : PdfDocumentModel := ⟨[], []⟩

/-- An open page-typed scope with sample content. -/
def samplePageCtx : PdfDrawContext := ⟨DrawContextType.page, false, "d", "c"⟩

/-- An open pattern-typed scope with sample content. -/
def samplePatternCtx : PdfDrawContext :=
  ⟨DrawContextType.colorTilingPattern, false, "d", "c"⟩

/-- A pattern builder holding a page-typed scope, for the wrong-path
counexample side of the type-mismatch claim. -/
def misTypedBuilder : ColorPatternBuilder := ⟨samplePageCtx, 2, 3⟩

end CapyPdf

namespace CapyPdf

/-! ## Byte-level helper lemmas for the decoder -/

theorem and224_of_twobyte : ∀ d : Nat, d < 32 →
    (192 + d) &&& 224 = 192 ∧ (192 + d) &&& 31 = d := by decide

theorem and_of_threebyte : ∀ e : Nat, e < 16 →
    (224 + e) &&& 224 = 224 ∧ (224 + e) &&& 240 = 224 ∧ (224 + e) &&& 15 = e := by
  decide

theorem and_of_fourbyte : ∀ f : Nat, f < 8 →
    (240 + f) &&& 224 = 224 ∧ (240 + f) &&& 240 = 240 ∧
    (240 + f) &&& 248 = 240 ∧ (240 + f) &&& 7 = f := by decide

theorem and_of_continuation : ∀ m : Nat, m < 64 → (128 + m) &&& 63 = m := by decide

/-- Shifting left by 6 and merging a value below 64 is the same as
multiplying by 64 and adding: the merged bits are disjoint. -/
theorem shiftLeft_or_low (a b : Nat) (h : b < 64) : (a <<< 6) ||| b = 64 * a + b := by
  rw [Nat.shiftLeft_eq, Nat.mul_comm a (2 ^ 6), ← Nat.mul_add_lt_is_or (by omega) a]

/-- Decoding one encoded scalar value from the front of a buffer yields
that scalar value back, consuming exactly the bytes of its encoding. -/
theorem extract_encodeOne (c : Nat) (hc : c < 1114112) (rest : List Nat) :
    extract_one_codepoint (utf8EncodeOne c ++ rest) =
      some (c, (utf8EncodeOne c).length) := by
  by_cases h1 : c < 128
  · simp only [utf8EncodeOne, if_pos h1, List.cons_append, List.nil_append,
      extract_one_codepoint, List.getD_cons_zero, List.length_cons,
      List.length_nil]
  · by_cases h2 : c < 2048
    · have hd : c / 64 < 32 := by omega
      have hm : c % 64 < 64 := Nat.mod_lt _ (by omega)
      simp only [utf8EncodeOne, if_neg h1, if_pos h2, List.cons_append,
        List.nil_append, extract_one_codepoint, List.getD_cons_zero,
        List.getD_cons_succ, List.length_cons, List.length_nil]
      rw [if_neg (by omega), if_pos (and224_of_twobyte _ hd).1]
      simp only [unpack_one, (and224_of_twobyte _ hd).2, unpackSub,
        and_of_continuation _ hm, shiftLeft_or_low _ _ hm, Nat.div_add_mod]
    · by_cases h3 : c < 65536
      · have he : c / 4096 < 16 := by omega
        have hm1 : c / 64 % 64 < 64 := Nat.mod_lt _ (by omega)
        have hm2 : c % 64 < 64 := Nat.mod_lt _ (by omega)
        obtain ⟨e1, e2, e3⟩ := and_of_threebyte _ he
        simp only [utf8EncodeOne, if_neg h1, if_neg h2, if_pos h3,
          List.cons_append, List.nil_append, extract_one_codepoint,
          List.getD_cons_zero, List.getD_cons_succ, List.length_cons,
          List.length_nil]
        rw [if_neg (by omega), if_neg (by rw [e1]; omega), if_pos e2]
        simp only [unpack_one, e3, unpackSub, and_of_continuation _ hm1,
          and_of_continuation _ hm2, shiftLeft_or_low _ _ hm1,
          shiftLeft_or_low _ _ hm2]
        have : 64 * (64 * (c / 4096) + c / 64 % 64) + c % 64 = c := by omega
        rw [this]
      · have hf : c / 262144 < 8 := by omega
        have hm1 : c / 4096 % 64 < 64 := Nat.mod_lt _ (by omega)
        have hm2 : c / 64 % 64 < 64 := Nat.mod_lt _ (by omega)
        have hm3 : c % 64 < 64 := Nat.mod_lt _ (by omega)
        obtain ⟨f1, f2, f3, f4⟩ := and_of_fourbyte _ hf
        simp only [utf8EncodeOne, if_neg h1, if_neg h2, if_neg h3,
          List.cons_append, List.nil_append, extract_one_codepoint,
          List.getD_cons_zero, List.getD_cons_succ, List.length_cons,
          List.length_nil]
        rw [if_neg (by omega), if_neg (by rw [f1]; omega),
          if_neg (by rw [f2]; omega), if_pos f3]
        simp only [unpack_one, f4, unpackSub, and_of_continuation _ hm1,
          and_of_continuation _ hm2, and_of_continuation _ hm3,
          shiftLeft_or_low _ _ hm1, shiftLeft_or_low _ _ hm2,
          shiftLeft_or_low _ _ hm3]
        have : 64 * (64 * (64 * (c / 262144) + c / 4096 % 64) + c / 64 % 64)
            + c % 64 = c := by omega
        rw [this]

/-- Whenever the decoder classifies a leading byte, the consumed-byte
count it reports is between 1 and 4. -/
theorem extract_consumed (buf : List Nat) (cp n : Nat)
    (h : extract_one_codepoint buf = some (cp, n)) : 1 ≤ n ∧ n ≤ 4 := by
  simp only [extract_one_codepoint] at h
  split_ifs at h <;> simp_all <;> omega

/-- The encoding of a scalar value is never empty. -/
theorem utf8EncodeOne_ne_nil (c : Nat) : utf8EncodeOne c ≠ [] := by
  unfold utf8EncodeOne
  split_ifs <;> simp

/-- Fueled decoding of an encoded scalar-value sequence recovers the
sequence together with the byte count of each scalar value, for any fuel
at least the buffer length. -/
theorem decodeFuel_encode (cs : List Nat) :
    ∀ fuel : Nat, (∀ c ∈ cs, c < 1114112) → (utf8Encode cs).length ≤ fuel →
    decodeFuel fuel (utf8Encode cs) =
      some (cs.map fun c => (c, (utf8EncodeOne c).length)) := by
  induction cs with
  | nil => intro fuel _ _; cases fuel <;> simp [utf8Encode, decodeFuel]
  | cons c cs ih =>
    intro fuel hall hlen
    have hc : c < 1114112 := hall c (by simp)
    obtain ⟨b, bs, hb⟩ : ∃ b bs, utf8EncodeOne c = b :: bs := by
      cases hcase : utf8EncodeOne c with
      | nil => exact absurd hcase (utf8EncodeOne_ne_nil c)
      | cons b bs => exact ⟨b, bs, rfl⟩
    have hlens : (utf8Encode (c :: cs)).length =
        (utf8EncodeOne c).length + (utf8Encode cs).length := by
      simp [utf8Encode]
    have hone : 1 ≤ (utf8EncodeOne c).length := by rw [hb]; simp
    cases fuel with
    | zero => omega
    | succ f =>
      have hsplit : utf8Encode (c :: cs) = b :: (bs ++ utf8Encode cs) := by
        simp [utf8Encode, hb]
      have hex : extract_one_codepoint (b :: (bs ++ utf8Encode cs)) =
          some (c, (utf8EncodeOne c).length) := by
        have h0 := extract_encodeOne c hc (utf8Encode cs)
        rw [hb] at h0
        simpa [hb] using h0
      have hdrop : List.drop (utf8EncodeOne c).length (b :: (bs ++ utf8Encode cs)) =
          utf8Encode cs := by
        have h1 : b :: (bs ++ utf8Encode cs) = utf8EncodeOne c ++ utf8Encode cs := by
          rw [hb]; simp
        rw [h1, List.drop_left]
      rw [hsplit]
      simp only [decodeFuel, hex, hdrop]
      rw [ih f (fun x hx => hall x (by simp [hx])) (by omega)]
      simp

/-- Decoding an encoded scalar-value sequence recovers it exactly. -/
theorem decodeAll_encode (cs : List Nat) (h : ∀ c ∈ cs, c < 1114112) :
    decodeAll (utf8Encode cs) =
      some (cs.map fun c => (c, (utf8EncodeOne c).length)) :=
  decodeFuel_encode cs (utf8Encode cs).length h (Nat.le_refl _)

/-- On a face without kerning support, the measurement loop adds exactly
the glyph advance of every codepoint to the running width. -/
theorem widthLoop_no_kern (env : TextMeasureEnv) (face : FontFace) (fid : Nat)
    (ps : ℚ) (hk : face.hasKerning = false) :
    ∀ (cps : List Nat) (adv : Nat → ℚ),
    (∀ cp ∈ cps, env.glyph_advance fid ps cp = some (adv cp)) →
    ∀ (prev : Option Nat) (w : ℚ),
    widthLoop env face fid ps cps prev w = Except.ok (w + (cps.map adv).sum) := by
  intro cps
  induction cps with
  | nil => intro adv _ prev w; simp [widthLoop]
  | cons cp rest ih =>
    intro adv hadv prev w
    have hcp : env.glyph_advance fid ps cp = some (adv cp) := hadv cp (by simp)
    simp only [widthLoop, hk, Bool.false_eq_true, if_false, hcp]
    rw [ih adv (fun x hx => hadv x (by simp [hx])) (some cp) (w + 0 + adv cp)]
    have : w + 0 + adv cp + (rest.map adv).sum =
        w + ((cp :: rest).map adv).sum := by
      simp [List.sum_cons]
      ring
    rw [this]

/-! ## Claim theorems -/

/-- C1: in the commit operation PdfGen::write, the rename of the
temporary path onto the destination happens only when opening,
serialization, flush, fsync and close have all succeeded; if any of
those fails, the call returns an error and the rename is never
performed; and on the success path the rename is the last file-system
action, after all the others in program order. -/
theorem write_renames_only_after_durable_success :
    (∀ (n : Nat) (env : WriteEnv),
      WriteEvent.renameTemp ∈ (PdfGen.write n env).2 →
      env.openOk = true ∧ env.serializeOk = true ∧ env.flushOk = true ∧
        env.fsyncOk = true ∧ env.closeOk = true)
    ∧ (∀ (n : Nat) (env : WriteEnv),
      (env.openOk = false ∨ env.serializeOk = false ∨ env.flushOk = false ∨
        env.fsyncOk = false ∨ env.closeOk = false) →
      (PdfGen.write n env).1 ≠ ErrorCode.NoError ∧
        WriteEvent.renameTemp ∉ (PdfGen.write n env).2)
    ∧ (∀ (n : Nat) (env : WriteEnv), n ≠ 0 → env.openOk = true →
      env.serializeOk = true → env.flushOk = true → env.fsyncOk = true →
      env.closeOk = true →
      (PdfGen.write n env).2 =
        [WriteEvent.openTempFile, WriteEvent.serializeGraph, WriteEvent.flushTemp,
          WriteEvent.fsyncTemp, WriteEvent.closeTemp, WriteEvent.renameTemp]) := by
  refine ⟨?_, ?_, ?_⟩
  · intro n env hmem
    obtain ⟨o, s, f, y, c, r⟩ := env
    by_cases hn : n = 0
    · subst hn; simp [PdfGen.write] at hmem
    · cases o <;> cases s <;> cases f <;> cases y <;> cases c <;> cases r <;>
        simp_all [PdfGen.write]
  · intro n env hfail
    obtain ⟨o, s, f, y, c, r⟩ := env
    by_cases hn : n = 0
    · subst hn; simp [PdfGen.write]
    · cases o <;> cases s <;> cases f <;> cases y <;> cases c <;> cases r <;>
        simp_all [PdfGen.write]
  · intro n env hn ho hs hf hy hc
    obtain ⟨o, s, f, y, c, r⟩ := env
    subst ho hs hf hy hc
    cases r <;> simp [PdfGen.write, hn]

/-- Witness for C1: in the all-success run with one page the rename is
performed, and the theorem recovers that every earlier stage
succeeded. -/
theorem write_renames_only_after_durable_success_witness :
    WriteEvent.renameTemp ∈ (PdfGen.write 1 envAllOk).2 ∧
    (envAllOk.openOk = true ∧ envAllOk.serializeOk = true ∧
      envAllOk.flushOk = true ∧ envAllOk.fsyncOk = true ∧
      envAllOk.closeOk = true) :=
  ⟨by decide, write_renames_only_after_durable_success.1 1 envAllOk (by decide)⟩

/-- C2: committing a session with zero registered pages returns the
NoPages error and performs no file-system action at all: neither the
temporary file nor the destination is opened or written. -/
theorem write_zero_pages_no_output :
    ∀ env : WriteEnv, PdfGen.write 0 env = (ErrorCode.NoPages, []) := by
  intro env
  simp [PdfGen.write]

/-- C3: for every well-formed UTF-8 buffer, iterating the codepoint
decoder yields a sequence of codepoints with consumed-byte counts such
that re-encoding each codepoint reproduces the original bytes exactly,
and each count equals the length of the re-encoding of its
codepoint. -/
theorem utf8_decode_reencode_roundtrip (buf : List Nat) (h : Utf8WellFormed buf) :
    ∃ l : List (Nat × Nat), decodeAll buf = some l ∧
      utf8Encode (l.map Prod.fst) = buf ∧
      ∀ p ∈ l, (utf8EncodeOne p.1).length = p.2 := by
  obtain ⟨cs, hsc, rfl⟩ := h
  refine ⟨cs.map fun c => (c, (utf8EncodeOne c).length),
    decodeAll_encode cs (fun c hc => (hsc c hc).1), ?_, ?_⟩
  · have hmaps : (cs.map fun c => ((c, (utf8EncodeOne c).length))).map Prod.fst =
        cs.map fun c => c := by
      rw [List.map_map]
      rfl
    rw [hmaps, List.map_id']
  · intro p hp
    simp only [List.mem_map] at hp
    obtain ⟨c, _, rfl⟩ := hp
    rfl

/-- Witness for C3 on the concrete buffer encoding the scalar values
97, 233, 8364 and 128512 (one codepoint of each encoded width). -/
theorem utf8_decode_reencode_roundtrip_witness :
    Utf8WellFormed [97, 195, 169, 226, 130, 172, 240, 159, 152, 128] ∧
    ∃ l : List (Nat × Nat),
      decodeAll [97, 195, 169, 226, 130, 172, 240, 159, 152, 128] = some l ∧
      utf8Encode (l.map Prod.fst) =
        [97, 195, 169, 226, 130, 172, 240, 159, 152, 128] ∧
      ∀ p ∈ l, (utf8EncodeOne p.1).length = p.2 :=
  ⟨⟨[97, 233, 8364, 128512], by decide, by decide⟩,
    utf8_decode_reencode_roundtrip _ ⟨[97, 233, 8364, 128512], by decide, by decide⟩⟩

/-- C4 counterexample: a failure at the fsync stage and a failure at the
rename stage are failures at different stages, yet both return the same
FileWriteError code, so the four stages are not pairwise
distinguishable as the claim states. -/
theorem write_stage_codes_counterexample :
    (PdfGen.write 1 envFsyncFail).1 = ErrorCode.FileWriteError ∧
    (PdfGen.write 1 envRenameFail).1 = ErrorCode.FileWriteError ∧
    envFsyncFail.fsyncOk = false ∧ envFsyncFail.renameOk = true ∧
    envRenameFail.fsyncOk = true ∧ envRenameFail.renameOk = false := by
  decide

/-- C4 as amended: each stage of the commit returns a fixed error code
(open failure CouldNotOpenFile, serialization or flush failure
DynamicError, fsync, close or rename failure FileWriteError); open,
write and rename failures are pairwise distinguishable, but a fsync or
close failure is not distinguishable from a rename failure. -/
theorem write_stage_error_codes :
    (∀ (n : Nat) (env : WriteEnv), n ≠ 0 → env.openOk = false →
      (PdfGen.write n env).1 = ErrorCode.CouldNotOpenFile)
    ∧ (∀ (n : Nat) (env : WriteEnv), n ≠ 0 → env.openOk = true →
      env.serializeOk = false → (PdfGen.write n env).1 = ErrorCode.DynamicError)
    ∧ (∀ (n : Nat) (env : WriteEnv), n ≠ 0 → env.openOk = true →
      env.serializeOk = true → env.flushOk = false →
      (PdfGen.write n env).1 = ErrorCode.DynamicError)
    ∧ (∀ (n : Nat) (env : WriteEnv), n ≠ 0 → env.openOk = true →
      env.serializeOk = true → env.flushOk = true → env.fsyncOk = false →
      (PdfGen.write n env).1 = ErrorCode.FileWriteError)
    ∧ (∀ (n : Nat) (env : WriteEnv), n ≠ 0 → env.openOk = true →
      env.serializeOk = true → env.flushOk = true → env.fsyncOk = true →
      env.closeOk = false → (PdfGen.write n env).1 = ErrorCode.FileWriteError)
    ∧ (∀ (n : Nat) (env : WriteEnv), n ≠ 0 → env.openOk = true →
      env.serializeOk = true → env.flushOk = true → env.fsyncOk = true →
      env.closeOk = true → env.renameOk = false →
      (PdfGen.write n env).1 = ErrorCode.FileWriteError)
    ∧ (ErrorCode.CouldNotOpenFile ≠ ErrorCode.DynamicError ∧
      ErrorCode.CouldNotOpenFile ≠ ErrorCode.FileWriteError ∧
      ErrorCode.DynamicError ≠ ErrorCode.FileWriteError) := by
  refine ⟨?_, ?_, ?_, ?_, ?_, ?_, by decide, by decide, by decide⟩
  · intro n env hn h1
    obtain ⟨o, s, f, y, c, r⟩ := env
    subst h1
    simp [PdfGen.write, hn]
  · intro n env hn h1 h2
    obtain ⟨o, s, f, y, c, r⟩ := env
    subst h1 h2
    simp [PdfGen.write, hn]
  · intro n env hn h1 h2 h3
    obtain ⟨o, s, f, y, c, r⟩ := env
    subst h1 h2 h3
    simp [PdfGen.write, hn]
  · intro n env hn h1 h2 h3 h4
    obtain ⟨o, s, f, y, c, r⟩ := env
    subst h1 h2 h3 h4
    simp [PdfGen.write, hn]
  · intro n env hn h1 h2 h3 h4 h5
    obtain ⟨o, s, f, y, c, r⟩ := env
    subst h1 h2 h3 h4 h5
    simp [PdfGen.write, hn]
  · intro n env hn h1 h2 h3 h4 h5 h6
    obtain ⟨o, s, f, y, c, r⟩ := env
    subst h1 h2 h3 h4 h5 h6
    simp [PdfGen.write, hn]

/-- Witness for the amended C4 at the concrete open-failure
environment. -/
theorem write_stage_error_codes_witness :
    (1 : Nat) ≠ 0 ∧
    (WriteEnv.mk false true true true true true).openOk = false ∧
    (PdfGen.write 1 (WriteEnv.mk false true true true true true)).1 =
      ErrorCode.CouldNotOpenFile :=
  ⟨by decide, by decide,
    write_stage_error_codes.1 1 (WriteEnv.mk false true true true true true)
      (by decide) (by decide)⟩

/-- C5: on a font whose face reports no kerning support, text
measurement is the sum of the per-codepoint glyph advances (each advance
already scaled to the point size by the glyph-advance oracle): in
general the width of any decoded text is that sum, and in particular the
width of the two-character text AB is the advance of A plus the advance
of B with no kerning term; the embedding is a pure function, so the
result does not depend on call order on a fresh handle. -/
theorem utf8_text_width_sums_advances :
    (∀ (env : TextMeasureEnv) (text : List Nat) (fid : Nat) (ps : ℚ) (idx : Nat)
      (entry : FontEntry) (face : FontFace) (l : List (Nat × Nat)) (adv : Nat → ℚ),
      env.font_objects.get? fid = some idx →
      env.fonts.get? idx = some entry →
      entry.face = some face →
      face.hasKerning = false →
      decodeAll text = some l →
      (∀ p ∈ l, env.glyph_advance fid ps p.1 = some (adv p.1)) →
      utf8_text_width env text fid ps = Except.ok ((l.map fun p => adv p.1).sum))
    ∧ (∀ (env : TextMeasureEnv) (fid : Nat) (ps : ℚ) (idx : Nat)
      (entry : FontEntry) (face : FontFace) (a b : ℚ),
      env.font_objects.get? fid = some idx →
      env.fonts.get? idx = some entry →
      entry.face = some face →
      face.hasKerning = false →
      env.glyph_advance fid ps 65 = some a →
      env.glyph_advance fid ps 66 = some b →
      utf8_text_width env [65, 66] fid ps = Except.ok (a + b)) := by
  have hgen : ∀ (env : TextMeasureEnv) (text : List Nat) (fid : Nat) (ps : ℚ)
      (idx : Nat) (entry : FontEntry) (face : FontFace) (l : List (Nat × Nat))
      (adv : Nat → ℚ),
      env.font_objects.get? fid = some idx →
      env.fonts.get? idx = some entry →
      entry.face = some face →
      face.hasKerning = false →
      decodeAll text = some l →
      (∀ p ∈ l, env.glyph_advance fid ps p.1 = some (adv p.1)) →
      utf8_text_width env text fid ps = Except.ok ((l.map fun p => adv p.1).sum) := by
    intro env text fid ps idx entry face l adv h1 h2 h3 hk hdec hadv
    have hadv2 : ∀ cp ∈ l.map Prod.fst,
        env.glyph_advance fid ps cp = some (adv cp) := by
      intro cp hcp
      simp only [List.mem_map] at hcp
      obtain ⟨p, hp, rfl⟩ := hcp
      exact hadv p hp
    simp only [utf8_text_width, h1, h2, h3, hdec]
    rw [widthLoop_no_kern env face fid ps hk (l.map Prod.fst) adv hadv2 none 0]
    have hmaps : (l.map Prod.fst).map adv = l.map fun p => adv p.1 := by
      rw [List.map_map]
      rfl
    rw [hmaps, zero_add]
  refine ⟨hgen, ?_⟩
  intro env fid ps idx entry face a b h1 h2 h3 hk ha hb
  have hdec : decodeAll [65, 66] = some [(65, 1), (66, 1)] := by decide
  have hmem : ∀ p ∈ [((65 : Nat), (1 : Nat)), (66, 1)],
      env.glyph_advance fid ps p.1 =
        some ((fun cp => if cp = 66 then b else a) p.1) := by
    intro p hp
    simp only [List.mem_cons, List.not_mem_nil, or_false] at hp
    rcases hp with rfl | rfl
    · simpa using ha
    · simpa using hb
  have := hgen env [65, 66] fid ps idx entry face [(65, 1), (66, 1)]
    (fun cp => if cp = 66 then b else a) h1 h2 h3 hk hdec hmem
  simpa using this

/-- Witness for C5 on a concrete one-font environment whose advances are
all 1. -/
theorem utf8_text_width_sums_advances_witness :
    faceEnv.font_objects.get? 0 = some 0 ∧
    faceEnv.fonts.get? 0 = some faceEntry ∧
    faceEntry.face = some plainFace ∧
    plainFace.hasKerning = false ∧
    faceEnv.glyph_advance 0 12 65 = some 1 ∧
    faceEnv.glyph_advance 0 12 66 = some 1 ∧
    utf8_text_width faceEnv [65, 66] 0 12 = Except.ok (1 + 1) :=
  ⟨rfl, rfl, rfl, rfl, rfl, rfl,
    utf8_text_width_sums_advances.2 faceEnv 0 12 0 faceEntry plainFace 1 1
      rfl rfl rfl rfl rfl rfl⟩

/-- C6 counterexample: on a handle with no backing face, measuring the
purely 7-bit-ASCII text consisting of the single character A fails with
the builtin-font error instead of succeeding, so the claim that
measurement succeeds for every ASCII-only text is false at this
input. -/
theorem builtin_font_ascii_counterexample :
    (∀ b ∈ ([65] : List Nat), b < 128) ∧
    utf8_text_width builtinEnv [65] 0 12 = Except.error WidthError.builtinFont := by
  exact ⟨by decide, rfl⟩

/-- C6 as amended: a font handle with no backing rasterized face makes
text-width measurement fail with the builtin-font error for every text,
ASCII or not (the source throws before looking at the text at all). -/
theorem builtin_font_width_always_fails :
    ∀ (env : TextMeasureEnv) (text : List Nat) (fid : Nat) (ps : ℚ) (idx : Nat)
      (entry : FontEntry),
    env.font_objects.get? fid = some idx →
    env.fonts.get? idx = some entry →
    entry.face = none →
    utf8_text_width env text fid ps = Except.error WidthError.builtinFont := by
  intro env text fid ps idx entry h1 h2 h3
  simp only [utf8_text_width, h1, h2, h3]

/-- Witness for the amended C6 on the concrete builtin-font
environment and a non-empty text. -/
theorem builtin_font_width_always_fails_witness :
    builtinEnv.font_objects.get? 0 = some 0 ∧
    builtinEnv.fonts.get? 0 = some builtinEntry ∧
    builtinEntry.face = none ∧
    utf8_text_width builtinEnv [66] 0 12 = Except.error WidthError.builtinFont :=
  ⟨rfl, rfl, rfl,
    builtin_font_width_always_fails builtinEnv [66] 0 12 0 builtinEntry rfl rfl rfl⟩

/-- C7 counterexample: a registered handle with no backing face is a
valid handle of the session, yet measuring the empty string on it
returns the builtin-font error rather than 0, so the claim does not hold
for every valid handle. -/
theorem empty_text_builtin_counterexample :
    utf8_text_width builtinEnv [] 0 12 = Except.error WidthError.builtinFont ∧
    utf8_text_width builtinEnv [] 0 12 ≠ Except.ok 0 := by
  have h0 : utf8_text_width builtinEnv [] 0 12 =
      Except.error WidthError.builtinFont := rfl
  refine ⟨h0, ?_⟩
  rw [h0]
  simp

/-- C7 as amended: for every font handle backed by a rasterized face and
every point size, measuring the empty string returns exactly 0 (the
decoding loop body is never entered); a faceless handle instead fails
even on the empty string. -/
theorem empty_text_width_zero :
    ∀ (env : TextMeasureEnv) (fid : Nat) (ps : ℚ) (idx : Nat)
      (entry : FontEntry) (face : FontFace),
    env.font_objects.get? fid = some idx →
    env.fonts.get? idx = some entry →
    entry.face = some face →
    utf8_text_width env [] fid ps = Except.ok 0 := by
  intro env fid ps idx entry face h1 h2 h3
  simp only [utf8_text_width, h1, h2, h3]
  rfl

/-- Witness for the amended C7 on the concrete face-backed
environment. -/
theorem empty_text_width_zero_witness :
    faceEnv.font_objects.get? 0 = some 0 ∧
    faceEnv.fonts.get? 0 = some faceEntry ∧
    faceEntry.face = some plainFace ∧
    utf8_text_width faceEnv [] 0 12 = Except.ok 0 :=
  ⟨rfl, rfl, rfl,
    empty_text_width_zero faceEnv 0 12 0 faceEntry plainFace rfl rfl rfl⟩

/-- C8: closing a content-stream scope through the wrong-typed path is
always rejected with a type-mismatch error and registers nothing: a
non-page context is rejected by add_page, and a builder whose context is
not a color tiling pattern is rejected by add_pattern; in both cases an
error is returned and no new document state is produced. -/
theorem wrong_typed_close_rejected :
    (∀ (doc : PdfDocumentModel) (ctx : PdfDrawContext),
      ctx.ctype ≠ DrawContextType.page →
      PdfGen.add_page doc ctx = Except.error AddError.wrongContextType)
    ∧ (∀ (doc : PdfDocumentModel) (cp : ColorPatternBuilder),
      cp.pctx.ctype ≠ DrawContextType.colorTilingPattern →
      PdfGen.add_pattern doc cp = Except.error AddError.wrongPatternType) := by
  constructor
  · intro doc ctx h
    simp [PdfGen.add_page, h]
  · intro doc cp h
    simp [PdfGen.add_pattern, h]

/-- Witness for C8 on a pattern-typed context fed to add_page and a
page-typed builder fed to add_pattern. -/
theorem wrong_typed_close_rejected_witness :
    samplePatternCtx.ctype ≠ DrawContextType.page ∧
    PdfGen.add_page emptyDoc samplePatternCtx =
      Except.error AddError.wrongContextType ∧
    misTypedBuilder.pctx.ctype ≠ DrawContextType.colorTilingPattern ∧
    PdfGen.add_pattern emptyDoc misTypedBuilder =
      Except.error AddError.wrongPatternType :=
  ⟨by decide, wrong_typed_close_rejected.1 emptyDoc samplePatternCtx (by decide),
    by decide, wrong_typed_close_rejected.2 emptyDoc misTypedBuilder (by decide)⟩

/-- C9: a scope that has already been closed is never silently accepted
again by add_page: on any closed scope add_page never returns a success
value, and after a successful add_page the returned scope is closed, so
calling add_page a second time with it is rejected with the fatal
reuse violation and registers no further page. -/
theorem closed_scope_reuse_rejected :
    (∀ (doc : PdfDocumentModel) (ctx : PdfDrawContext)
      (r : PdfDocumentModel × Int × PdfDrawContext),
      ctx.closed = true → PdfGen.add_page doc ctx ≠ Except.ok r)
    ∧ (∀ (doc : PdfDocumentModel) (ctx : PdfDrawContext),
      ctx.ctype = DrawContextType.page → ctx.closed = false →
      ∃ doc2 pid ctx2,
        PdfGen.add_page doc ctx = Except.ok (doc2, pid, ctx2) ∧
        ctx2.closed = true ∧
        PdfGen.add_page doc2 ctx2 = Except.error AddError.reusedClosedScope) := by
  constructor
  · intro doc ctx r hc
    by_cases ht : ctx.ctype = DrawContextType.page
    · simp [PdfGen.add_page, ht, PdfDrawContext.serialize, hc]
    · simp [PdfGen.add_page, ht]
  · intro doc ctx ht hc
    have h1 : PdfGen.add_page doc ctx =
        Except.ok (doc.add_page ⟨ctx.dict, ctx.commands⟩,
          ((doc.add_page ⟨ctx.dict, ctx.commands⟩).pages.length : Int) - 1,
          ctx.clear) := by
      simp [PdfGen.add_page, ht, PdfDrawContext.serialize, hc]
    refine ⟨_, _, _, h1, rfl, ?_⟩
    simp [PdfGen.add_page, PdfDrawContext.clear, ht, PdfDrawContext.serialize]

/-- Witness for C9: closing the sample open page scope succeeds once and
the second attempt on the returned scope is rejected. -/
theorem closed_scope_reuse_rejected_witness :
    samplePageCtx.ctype = DrawContextType.page ∧
    samplePageCtx.closed = false ∧
    (∃ doc2 pid ctx2,
      PdfGen.add_page emptyDoc samplePageCtx = Except.ok (doc2, pid, ctx2) ∧
      ctx2.closed = true ∧
      PdfGen.add_page doc2 ctx2 = Except.error AddError.reusedClosedScope) :=
  ⟨rfl, rfl, closed_scope_reuse_rejected.2 emptyDoc samplePageCtx rfl rfl⟩

/-- C10: whenever the decoder step classifies the leading byte and
returns, the consumed-byte count is at least 1 and at most 4, so on a
non-empty buffer the remaining byte count strictly decreases at every
step and iteration terminates (the unclassifiable-leading-byte case is
the modelled process abort, `none`). -/
theorem extract_consumed_bounds_and_decrease :
    ∀ (buf : List Nat) (cp n : Nat),
    extract_one_codepoint buf = some (cp, n) →
    (1 ≤ n ∧ n ≤ 4) ∧ (buf ≠ [] → (List.drop n buf).length < buf.length) := by
  intro buf cp n h
  have hb := extract_consumed buf cp n h
  refine ⟨hb, ?_⟩
  intro hne
  have hpos : 0 < buf.length := List.length_pos.mpr hne
  simp only [List.length_drop]
  omega

/-- Witness for C10 on the two-byte encoding of the scalar value
947. -/
theorem extract_consumed_bounds_and_decrease_witness :
    extract_one_codepoint [206, 179] = some (947, 2) ∧
    ((1 ≤ 2 ∧ 2 ≤ 4) ∧ (([206, 179] : List Nat) ≠ [] →
      (List.drop 2 ([206, 179] : List Nat)).length <
        ([206, 179] : List Nat).length)) :=
  ⟨by decide, extract_consumed_bounds_and_decrease [206, 179] 947 2 (by decide)⟩

end CapyPdf
